import Mathlib

/-!
Verification development for the TAICC AI-readiness assessment app
(`app.py`).  Python floats are modelled as exact rationals (`ℚ`);
strings as Lean `String` / `List Char`; the external collaborators
(text generation, payment gateway) as explicit oracle inputs.
-/

/-- `SCORE_MAP` from `app.py` line 93: the ordinal response vocabulary
mapped to integer scores. -/
def SCORE_MAP : List (String × ℕ) :=
  [("Not at all", 1), ("Slightly", 2), ("Moderately", 3), ("Very", 4), ("Fully", 5)]

/-- Lookup in `SCORE_MAP`, as `SCORE_MAP[ans]` behaves in Python:
defined exactly on the five vocabulary labels. -/
def normalizeResponse (s : String) : Option ℕ :=
  (SCORE_MAP.find? (fun p => p.1 == s)).map (fun p => p.2)

/-- `READINESS_LEVELS` from `app.py` lines 94-100: five closed bands
`(low, high, label)`, written with the exact decimal constants of the
source (1.1 = 11/10 etc.). -/
def READINESS_LEVELS : List (ℚ × ℚ × String) :=
  [(0, 1, "Beginner"),
   (11/10, 2, "Emerging"),
   (21/10, 3, "Established"),
   (31/10, 4, "Advanced"),
   (41/10, 5, "AI Leader")]

/-- The loop body of `determine_maturity`: scan the bands in order and
return the first label whose closed interval contains `avg`. -/
def classifyAux : List (ℚ × ℚ × String) → ℚ → String
  | [], _ => "Undefined"
  | (low, high, label) :: rest, avg =>
      if low ≤ avg ∧ avg ≤ high then label else classifyAux rest avg

/-- `determine_maturity` from `app.py` lines 102-106. -/
def determine_maturity (avg : ℚ) : String :=
  classifyAux READINESS_LEVELS avg

/-- Round-half-to-even to the nearest integer, the behaviour of
Python's builtin `round` on an exactly-represented value. -/
def roundHalfEven (q : ℚ) : ℤ :=
  if Int.fract q < 1/2 then ⌊q⌋
  else if 1/2 < Int.fract q then ⌊q⌋ + 1
  else if ⌊q⌋ % 2 = 0 then ⌊q⌋ else ⌊q⌋ + 1

/-- Python's `round(x, 2)`: round to the nearest multiple of 1/100,
ties to even. -/
def pyRound2 (q : ℚ) : ℚ := (roundHalfEven (q * 100) : ℚ) / 100

/-- The Results-page aggregation, `app.py` line 332:
`avg = round(sum(answers)/len(answers),2) if answers else 0.0`. -/
def aggregate (answers : List ℤ) : ℚ :=
  if answers.isEmpty then 0
  else pyRound2 ((answers.sum : ℚ) / (answers.length : ℚ))

/-- The character sanitization in `build_pdf_bytes`, `app.py` line 153:
`report_text.encode('latin-1', 'replace').decode('latin-1')`.  Each
character whose codepoint exceeds 255 is replaced by a single `?`
(codepoint 63); latin-1 characters pass through unchanged. -/
def sanitize (s : List Char) : List Char :=
  s.map (fun c => if c.toNat ≤ 255 then c else '?')

/-- Strict latin-1 byte encoding (as used by `pdf.output(...).encode("latin-1")`,
`app.py` line 159): succeeds exactly when every character is a
latin-1 codepoint, yielding one byte per character. -/
def latin1_encode (s : List Char) : Option (List ℕ) :=
  if s.all (fun c => c.toNat ≤ 255) then some (s.map Char.toNat) else none

/-- `generate_professional_summary` from `app.py` lines 108-129, with
the external Gemini call abstracted as an oracle: `.ok t` models a
successful `generate_content` returning text `t` (which the code
strips), `.error e` models the call raising exception `e`, caught on
line 128 and turned into the fallback string. -/
def generate_professional_summary (hasKey : Bool) (gemini : Except String String) : String :=
  if !hasKey then "Gemini API key missing — cannot generate the professional report."
  else
    match gemini with
    | .ok text => text.trim
    | .error e => "Gemini generation failed: " ++ e

/-- The artifacts the Results page produces, `app.py` lines 326-362:
average, maturity label, report text, the sanitized PDF body text
(the `multi_cell` content of `build_pdf_bytes`), and whether the
persistence step (Firestore save) is reached. -/
structure ReportArtifacts where
  avg : ℚ
  maturity : String
  report_text : String
  pdf_body : List Char
  persisted : Bool
deriving Repr, DecidableEq

/-- The Results-page pipeline, `app.py` lines 326-353: with no answers
nothing runs (`none`); otherwise the average, maturity, report text,
PDF and persistence all run in sequence, unconditionally on the
report text that came back (fallback or not). -/
def results_page (hasKey : Bool) (answers : List ℤ) (gemini : Except String String) :
    Option ReportArtifacts :=
  if answers.isEmpty then none
  else
    let avg := aggregate answers
    let maturity := determine_maturity avg
    let report_text := generate_professional_summary hasKey gemini
    some { avg := avg, maturity := maturity, report_text := report_text,
           pdf_body := sanitize report_text.data, persisted := true }

/-- The session events that touch the payment gate in `app.py`:
`verifyPayment s` is the "Verify Payment" button handler observing the
gateway report `s` (lines 283-293); `submitAssessment` is the
questionnaire submission, reachable only past the gate on lines
298-300; `navigate` is any page change, which touches no session
state. -/
inductive Event where
  | verifyPayment (status : String)
  | submitAssessment
  | navigate (page : String)
deriving Repr, DecidableEq

/-- The per-session state relevant to the payment gate, from the
`st.session_state` initialisation on `app.py` lines 216-221. -/
structure SessionState where
  payment_done : Bool
  answers_submitted : Bool
deriving Repr, DecidableEq

/-- Initial session state, `app.py` lines 216-221: `payment_done = False`,
no answers. -/
def initState : SessionState := { payment_done := false, answers_submitted := false }

/-- One step of the session: the Verify Payment handler sets
`payment_done` iff the fetched payment-link status equals `"paid"`
(lines 289-293); the Assessment page only accepts a submission when
`payment_done` is set (lines 298-300); navigation changes nothing. -/
def step (s : SessionState) : Event → SessionState
  | .verifyPayment status =>
      if status = "paid" then { s with payment_done := true } else s
  | .submitAssessment =>
      if s.payment_done then { s with answers_submitted := true } else s
  | .navigate _ => s

/-- Run a sequence of session events from a state. -/
def run (s : SessionState) (tr : List Event) : SessionState :=
  tr.foldl step s

/-- The Assessment-page gate, `app.py` line 299: the questionnaire is
accessible iff `payment_done`. -/
def assessmentAccessible (s : SessionState) : Bool := s.payment_done

/-- `classify_spec`: the maturity classifier exactly as the spec's
half-open bands describe it ((0,1.5] Beginner, (1.5,2.5] Emerging,
(2.5,3.5] Established, (3.5,4.5] Advanced, (4.5,5] AI Leader), for
comparison against `determine_maturity` from the source. -/
def classify_spec (avg : ℚ) : String :=
  if 0 < avg ∧ avg ≤ 3/2 then "Beginner"
  else if 3/2 < avg ∧ avg ≤ 5/2 then "Emerging"
  else if 5/2 < avg ∧ avg ≤ 7/2 then "Established"
  else if 7/2 < avg ∧ avg ≤ 9/2 then "Advanced"
  else if 9/2 < avg ∧ avg ≤ 5 then "AI Leader"
  else "Undefined"

/-- The five maturity labels. -/
def maturityLabels : List String :=
  ["Beginner", "Emerging", "Established", "Advanced", "AI Leader"]

/-- The four gaps left between the source's closed bands. -/
def inGap (q : ℚ) : Prop :=
  (1 < q ∧ q < 11/10) ∨ (2 < q ∧ q < 21/10) ∨ (3 < q ∧ q < 31/10) ∨ (4 < q ∧ q < 41/10)

instance (q : ℚ) : Decidable (inGap q) := by
  unfold inGap; infer_instance

/-- A band `(low, high, label)` of `READINESS_LEVELS` matches an average
iff the average lies in the closed interval `[low, high]`. -/
def bandMatches (b : ℚ × ℚ × String) (q : ℚ) : Prop := b.1 ≤ q ∧ q ≤ b.2.1

/-- Closed form of `determine_maturity`: the ordered scan over
`READINESS_LEVELS` is the nested conditional over its five closed bands. -/
theorem determine_maturity_eq (q : ℚ) :
    determine_maturity q =
      if 0 ≤ q ∧ q ≤ 1 then "Beginner"
      else if 11/10 ≤ q ∧ q ≤ 2 then "Emerging"
      else if 21/10 ≤ q ∧ q ≤ 3 then "Established"
      else if 31/10 ≤ q ∧ q ≤ 4 then "Advanced"
      else if 41/10 ≤ q ∧ q ≤ 5 then "AI Leader"
      else "Undefined" := by
  simp [determine_maturity, READINESS_LEVELS, classifyAux]

/-- Rounding half-to-even moves a rational by at most 1/2. -/
theorem abs_roundHalfEven_sub_le (q : ℚ) : |(roundHalfEven q : ℚ) - q| ≤ 1/2 := by
  have hq : (⌊q⌋ : ℚ) + Int.fract q = q := Int.floor_add_fract q
  have h0 : 0 ≤ Int.fract q := Int.fract_nonneg q
  have h1 : Int.fract q < 1 := Int.fract_lt_one q
  unfold roundHalfEven
  split_ifs with ha hb hc <;> rw [abs_le] <;> constructor <;> push_cast <;> linarith

/-- Rounding to two decimal places moves a rational by at most 1/200. -/
theorem abs_pyRound2_sub_le (q : ℚ) : |pyRound2 q - q| ≤ 1/200 := by
  have h := abs_roundHalfEven_sub_le (q * 100)
  unfold pyRound2
  have heq : (roundHalfEven (q * 100) : ℚ) / 100 - q
      = ((roundHalfEven (q * 100) : ℚ) - q * 100) / 100 := by ring
  rw [heq, abs_div]
  rw [show |(100 : ℚ)| = 100 by norm_num]
  rw [div_le_iff₀ (by norm_num : (0:ℚ) < 100)]
  linarith

/-- No two distinct bands of `READINESS_LEVELS` match the same average:
the closed bands are pairwise disjoint. -/
theorem bands_no_overlap (q : ℚ) :
    ∀ b1 ∈ READINESS_LEVELS, ∀ b2 ∈ READINESS_LEVELS,
      bandMatches b1 q → bandMatches b2 q → b1 = b2 := by
  intro b1 hb1 b2 hb2 hm1 hm2
  simp only [READINESS_LEVELS, List.mem_cons, List.not_mem_nil, or_false] at hb1 hb2
  rcases hb1 with h | h | h | h | h <;> subst h <;>
    rcases hb2 with h | h | h | h | h <;> subst h <;>
    simp only [bandMatches] at hm1 hm2 <;>
    first | rfl | (exfalso; obtain ⟨a1, a2⟩ := hm1; obtain ⟨a3, a4⟩ := hm2; linarith)

/-- Every average in [0,5] either lies in one of the four gaps between
the bands (and classifies to "Undefined"), or lies in a band (and
classifies to one of the five labels). -/
theorem maturity_gap_char (q : ℚ) (h0 : 0 ≤ q) (h5 : q ≤ 5) :
    (inGap q ∧ determine_maturity q = "Undefined") ∨
    (¬ inGap q ∧ determine_maturity q ∈ maturityLabels) := by
  rw [determine_maturity_eq]
  split_ifs with h1 h2 h3 h4 h6
  · right
    obtain ⟨a, b⟩ := h1
    exact ⟨by rintro (⟨c,d⟩|⟨c,d⟩|⟨c,d⟩|⟨c,d⟩) <;> linarith, by decide⟩
  · right
    obtain ⟨a, b⟩ := h2
    exact ⟨by rintro (⟨c,d⟩|⟨c,d⟩|⟨c,d⟩|⟨c,d⟩) <;> linarith, by decide⟩
  · right
    obtain ⟨a, b⟩ := h3
    exact ⟨by rintro (⟨c,d⟩|⟨c,d⟩|⟨c,d⟩|⟨c,d⟩) <;> linarith, by decide⟩
  · right
    obtain ⟨a, b⟩ := h4
    exact ⟨by rintro (⟨c,d⟩|⟨c,d⟩|⟨c,d⟩|⟨c,d⟩) <;> linarith, by decide⟩
  · right
    obtain ⟨a, b⟩ := h6
    exact ⟨by rintro (⟨c,d⟩|⟨c,d⟩|⟨c,d⟩|⟨c,d⟩) <;> linarith, by decide⟩
  · left
    have ha : 1 < q := not_le.mp (fun hle => h1 ⟨h0, hle⟩)
    refine ⟨?_, rfl⟩
    rcases lt_or_le q (11/10) with hx | hx
    · exact Or.inl ⟨ha, hx⟩
    · have hb : 2 < q := not_le.mp (fun hle => h2 ⟨hx, hle⟩)
      rcases lt_or_le q (21/10) with hy | hy
      · exact Or.inr (Or.inl ⟨hb, hy⟩)
      · have hc : 3 < q := not_le.mp (fun hle => h3 ⟨hy, hle⟩)
        rcases lt_or_le q (31/10) with hz | hz
        · exact Or.inr (Or.inr (Or.inl ⟨hc, hz⟩))
        · have hd : 4 < q := not_le.mp (fun hle => h4 ⟨hz, hle⟩)
          have hlt : q < 41/10 := not_le.mp (fun hle => h6 ⟨hle, h5⟩)
          exact Or.inr (Or.inr (Or.inr ⟨hd, hlt⟩))

/-- Claim C1 fails on the source: the average 1.05 lies in [0,5] yet
`determine_maturity` returns the "Undefined" fallthrough, which is none
of the five labels — the bands are not gap-free. -/
theorem C1_counterexample :
    (0 ≤ (21/20 : ℚ) ∧ (21/20 : ℚ) ≤ 5) ∧
    determine_maturity (21/20) = "Undefined" ∧
    "Undefined" ∉ maturityLabels :=
  ⟨⟨by norm_num, by norm_num⟩,
   by norm_num [determine_maturity, READINESS_LEVELS, classifyAux],
   by decide⟩

/-- Claim C1, amended: over [0,5] the classifier's five closed bands are
non-overlapping but not gap-free — an average classifies to one of the
five labels iff it avoids the four gaps (1,1.1), (2,2.1), (3,3.1),
(4,4.1); averages in a gap yield the "Undefined" fallthrough; and no
two distinct bands match the same average. -/
theorem C1_bands_amended (q : ℚ) (h0 : 0 ≤ q) (h5 : q ≤ 5) :
    (determine_maturity q ∈ maturityLabels ↔ ¬ inGap q) ∧
    (determine_maturity q = "Undefined" ↔ inGap q) ∧
    (∀ b1 ∈ READINESS_LEVELS, ∀ b2 ∈ READINESS_LEVELS,
      bandMatches b1 q → bandMatches b2 q → b1 = b2) := by
  rcases maturity_gap_char q h0 h5 with ⟨hg, he⟩ | ⟨hg, he⟩
  · refine ⟨iff_of_false ?_ (not_not_intro hg), iff_of_true he hg, bands_no_overlap q⟩
    rw [he]; decide
  · refine ⟨iff_of_true he hg, iff_of_false ?_ hg, bands_no_overlap q⟩
    intro hEq
    rw [hEq] at he
    exact absurd he (by decide)

/-- Concrete instance of the amended C1 at the in-range average 3. -/
theorem C1_witness : (0 ≤ (3:ℚ) ∧ (3:ℚ) ≤ 5) ∧
    (determine_maturity 3 ∈ maturityLabels ↔ ¬ inGap 3) :=
  ⟨⟨by norm_num, by norm_num⟩, (C1_bands_amended 3 (by norm_num) (by norm_num)).1⟩

/-- Claim C2 fails on the source: the spec's half-open bands place 1.5
in (0,1.5] → Beginner, but `determine_maturity` returns "Emerging" at
1.5 (its closed bands differ: [1.1,2] → Emerging). -/
theorem C2_counterexample :
    ((0:ℚ) < 3/2 ∧ (3/2 : ℚ) ≤ 3/2) ∧
    determine_maturity (3/2) = "Emerging" ∧
    classify_spec (3/2) = "Beginner" ∧
    ("Emerging" : String) ≠ "Beginner" :=
  ⟨⟨by norm_num, le_refl _⟩,
   by norm_num [determine_maturity, READINESS_LEVELS, classifyAux],
   by norm_num [classify_spec],
   by decide⟩

/-- Claim C2, amended: the classifier maps averages to labels by the
closed bands of the source — [0,1] Beginner, [1.1,2] Emerging,
[2.1,3] Established, [3.1,4] Advanced, [4.1,5] AI Leader — not the
spec's half-open bands. -/
theorem C2_bands_corrected (q : ℚ) :
    (0 ≤ q ∧ q ≤ 1 → determine_maturity q = "Beginner") ∧
    (11/10 ≤ q ∧ q ≤ 2 → determine_maturity q = "Emerging") ∧
    (21/10 ≤ q ∧ q ≤ 3 → determine_maturity q = "Established") ∧
    (31/10 ≤ q ∧ q ≤ 4 → determine_maturity q = "Advanced") ∧
    (41/10 ≤ q ∧ q ≤ 5 → determine_maturity q = "AI Leader") := by
  refine ⟨?_, ?_, ?_, ?_, ?_⟩ <;> rintro ⟨ha, hb⟩ <;> rw [determine_maturity_eq]
  · rw [if_pos ⟨ha, hb⟩]
  · rw [if_neg (by rintro ⟨c, d⟩; linarith), if_pos ⟨ha, hb⟩]
  · rw [if_neg (by rintro ⟨c, d⟩; linarith), if_neg (by rintro ⟨c, d⟩; linarith),
      if_pos ⟨ha, hb⟩]
  · rw [if_neg (by rintro ⟨c, d⟩; linarith), if_neg (by rintro ⟨c, d⟩; linarith),
      if_neg (by rintro ⟨c, d⟩; linarith), if_pos ⟨ha, hb⟩]
  · rw [if_neg (by rintro ⟨c, d⟩; linarith), if_neg (by rintro ⟨c, d⟩; linarith),
      if_neg (by rintro ⟨c, d⟩; linarith), if_neg (by rintro ⟨c, d⟩; linarith),
      if_pos ⟨ha, hb⟩]

/-- Concrete instance of the amended C2 at the average 0.5. -/
theorem C2_witness : determine_maturity (1/2) = "Beginner" :=
  (C2_bands_corrected (1/2)).1 ⟨by norm_num, by norm_num⟩

/-- Claim C3 fails on the source: at the out-of-range averages 6 and -1
`determine_maturity` returns the defined fallback string "Undefined"
instead of failing with a ScoreOutOfRange error (the function has no
error path at all). -/
theorem C3_counterexample :
    determine_maturity 6 = "Undefined" ∧ determine_maturity (-1) = "Undefined" := by
  constructor <;> norm_num [determine_maturity, READINESS_LEVELS, classifyAux]

/-- Claim C3, amended: for every average outside [0,5] the classifier
returns the fallback label "Undefined"; no error is raised. -/
theorem C3_out_of_range_corrected (q : ℚ) (h : q < 0 ∨ 5 < q) :
    determine_maturity q = "Undefined" := by
  rw [determine_maturity_eq]
  have h1 : ¬(0 ≤ q ∧ q ≤ 1) := by rintro ⟨a, b⟩; rcases h with h | h <;> linarith
  have h2 : ¬(11/10 ≤ q ∧ q ≤ 2) := by rintro ⟨a, b⟩; rcases h with h | h <;> linarith
  have h3 : ¬(21/10 ≤ q ∧ q ≤ 3) := by rintro ⟨a, b⟩; rcases h with h | h <;> linarith
  have h4 : ¬(31/10 ≤ q ∧ q ≤ 4) := by rintro ⟨a, b⟩; rcases h with h | h <;> linarith
  have h6 : ¬(41/10 ≤ q ∧ q ≤ 5) := by rintro ⟨a, b⟩; rcases h with h | h <;> linarith
  rw [if_neg h1, if_neg h2, if_neg h3, if_neg h4, if_neg h6]

/-- Concrete instance of the amended C3 at the out-of-range average 6. -/
theorem C3_witness : ((5:ℚ) < 6) ∧ determine_maturity 6 = "Undefined" :=
  ⟨by norm_num, C3_out_of_range_corrected 6 (Or.inr (by norm_num))⟩

/-- Claim C4: on a non-empty score list the aggregator returns exactly
the two-decimal rounding of the arithmetic mean — a multiple of 1/100
within 1/200 of the mean — and on the empty list it returns 0 rather
than erroring. -/
theorem C4_aggregate_mean (l : List ℤ) (h : l ≠ []) :
    aggregate l = pyRound2 ((l.sum : ℚ) / (l.length : ℚ)) ∧
    (∃ n : ℤ, aggregate l = (n : ℚ) / 100) ∧
    |aggregate l - (l.sum : ℚ) / (l.length : ℚ)| ≤ 1/200 ∧
    aggregate [] = 0 := by
  have hne : l.isEmpty = false := by simpa [List.isEmpty_iff] using h
  refine ⟨by simp [aggregate, hne], ?_, ?_, by norm_num [aggregate]⟩
  · exact ⟨roundHalfEven ((l.sum : ℚ) / (l.length : ℚ) * 100),
      by simp [aggregate, hne, pyRound2]⟩
  · rw [show aggregate l = pyRound2 ((l.sum : ℚ) / (l.length : ℚ)) from by
      simp [aggregate, hne]]
    exact abs_pyRound2_sub_le _

/-- Concrete instance of C4 on the spec's Scenario D score list. -/
theorem C4_witness :
    ([2, 3, 4, 5, 1] : List ℤ) ≠ [] ∧
    |aggregate [2, 3, 4, 5, 1] -
      (([2, 3, 4, 5, 1] : List ℤ).sum : ℚ) / (([2, 3, 4, 5, 1] : List ℤ).length : ℚ)| ≤ 1/200 :=
  ⟨by decide, (C4_aggregate_mean [2, 3, 4, 5, 1] (by decide)).2.2.1⟩

/-- Claim C5: the answer normalizer is defined on each of the five
response labels with values Not at all 1, Slightly 2, Moderately 3,
Very 4, Fully 5; its image over `SCORE_MAP` is exactly [1,2,3,4,5] and
no two entries share a value (injectivity). -/
theorem C5_normalize_vocabulary :
    normalizeResponse "Not at all" = some 1 ∧
    normalizeResponse "Slightly" = some 2 ∧
    normalizeResponse "Moderately" = some 3 ∧
    normalizeResponse "Very" = some 4 ∧
    normalizeResponse "Fully" = some 5 ∧
    SCORE_MAP.map Prod.snd = [1, 2, 3, 4, 5] ∧
    SCORE_MAP.Pairwise (fun p q => p.2 ≠ q.2) := by
  refine ⟨rfl, rfl, rfl, rfl, rfl, rfl, ?_⟩
  decide

/-- Claim C6: sanitization is length-preserving (no character is
dropped), every output character is in the byte-encodable latin-1
subset, the subsequent strict latin-1 byte encoding of sanitized text
always succeeds, and pointwise each character in the subset passes
through unchanged while each character outside it becomes the single
placeholder character. -/
theorem C6_sanitize_total_safe (s : List Char) :
    (sanitize s).length = s.length ∧
    (∀ c ∈ sanitize s, c.toNat ≤ 255) ∧
    (latin1_encode (sanitize s)).isSome = true ∧
    (∀ i : ℕ, (sanitize s)[i]? = (s[i]?).map (fun c => if c.toNat ≤ 255 then c else '?')) := by
  have hmem : ∀ c ∈ sanitize s, c.toNat ≤ 255 := by
    intro c hc
    rcases List.mem_map.mp hc with ⟨a, _, rfl⟩
    by_cases hba : a.toNat ≤ 255
    · simp [hba]
    · simp [hba]
  refine ⟨by simp [sanitize], hmem, ?_, ?_⟩
  · unfold latin1_encode
    rw [if_pos]
    · rfl
    · simp only [List.all_eq_true, decide_eq_true_eq]
      exact hmem
  · intro i
    simp [sanitize, List.getElem?_map]

/-- Concrete instance of C6 on a string mixing ASCII, latin-1 and a
character beyond latin-1. -/
theorem C6_witness :
    (sanitize "aé😀".data).length = ("aé😀".data).length ∧
    (latin1_encode (sanitize "aé😀".data)).isSome = true :=
  ⟨(C6_sanitize_total_safe "aé😀".data).1, (C6_sanitize_total_safe "aé😀".data).2.2.1⟩

/-- Claim C7: sanitization is idempotent — sanitizing already-sanitized
text is a no-op. -/
theorem C7_sanitize_idempotent (s : List Char) :
    sanitize (sanitize s) = sanitize s := by
  simp only [sanitize, List.map_map]
  have hfix : (fun c => if c.toNat ≤ 255 then c else '?') ∘
      (fun c : Char => if c.toNat ≤ 255 then c else '?') =
      (fun c : Char => if c.toNat ≤ 255 then c else '?') := by
    funext c
    by_cases h : c.toNat ≤ 255
    · simp [h]
    · simp only [Function.comp_apply, if_neg h]
      decide
  rw [hfix]

/-- Concrete instance of C7. -/
theorem C7_witness : sanitize (sanitize "aé😀".data) = sanitize "aé😀".data :=
  C7_sanitize_idempotent "aé😀".data

/-- Claim C8: when the text-generation collaborator raises with cause
`e`, the Results-page pipeline still produces a report whose text is
the fallback string recording `e`, the PDF body is built by sanitizing
that fallback text, and the persistence step is still reached — the
pipeline does not abort. -/
theorem C8_degrade_and_continue (answers : List ℤ) (h : answers ≠ []) (e : String) :
    ∃ r : ReportArtifacts,
      results_page true answers (Except.error e) = some r ∧
      r.report_text = "Gemini generation failed: " ++ e ∧
      r.pdf_body = sanitize ("Gemini generation failed: " ++ e).data ∧
      r.persisted = true ∧
      r.avg = aggregate answers ∧
      r.maturity = determine_maturity (aggregate answers) := by
  have hne : answers.isEmpty = false := by simpa [List.isEmpty_iff] using h
  unfold results_page
  rw [if_neg (by simp [hne])]
  exact ⟨_, rfl, rfl, rfl, rfl, rfl, rfl⟩

/-- Concrete instance of C8: one answered question, collaborator raises
"boom". -/
theorem C8_witness :
    ∃ r : ReportArtifacts,
      results_page true [3] (Except.error "boom") = some r ∧
      r.report_text = "Gemini generation failed: " ++ "boom" ∧
      r.pdf_body = sanitize ("Gemini generation failed: " ++ "boom").data ∧
      r.persisted = true ∧
      r.avg = aggregate [3] ∧
      r.maturity = determine_maturity (aggregate [3]) :=
  C8_degrade_and_continue [3] (by decide) "boom"

/-- A session that never observes a "paid" payment-link status is left
exactly where it started whenever payment is not yet done: no event can
set the payment flag or record answers. -/
theorem run_no_paid (tr : List Event) : ∀ s : SessionState,
    Event.verifyPayment "paid" ∉ tr → s.payment_done = false → run s tr = s := by
  induction tr with
  | nil => intro s _ _; rfl
  | cons e rest ih =>
    intro s hnp hpd
    have hstep : step s e = s := by
      cases e with
      | verifyPayment st =>
        have hst : st ≠ "paid" := fun hh => hnp (by rw [hh]; exact List.mem_cons_self _ _)
        simp [step, hst]
      | submitAssessment => simp [step, hpd]
      | navigate p => rfl
    have hrun : run s (e :: rest) = run (step s e) rest := rfl
    rw [hrun, hstep]
    exact ih s (fun hm => hnp (List.mem_cons_of_mem _ hm)) hpd

/-- Claim C9: from the initial session state, any event trace that never
contains a payment verification reporting exactly "paid" leaves the
Assessment page blocked, the payment flag false and no answers
recorded — the questionnaire is accessible only after an explicit
"paid" confirmation. -/
theorem C9_payment_gate (tr : List Event) (h : Event.verifyPayment "paid" ∉ tr) :
    assessmentAccessible (run initState tr) = false ∧
    (run initState tr).payment_done = false ∧
    (run initState tr).answers_submitted = false := by
  rw [run_no_paid tr initState h rfl]
  exact ⟨rfl, rfl, rfl⟩

/-- Concrete instance of C9: a trace that polls an unpaid link, visits
the Assessment page and attempts a submission stays blocked. -/
theorem C9_witness :
    Event.verifyPayment "paid" ∉
      [Event.verifyPayment "created", Event.navigate "Assessment", Event.submitAssessment] ∧
    assessmentAccessible (run initState
      [Event.verifyPayment "created", Event.navigate "Assessment",
       Event.submitAssessment]) = false :=
  ⟨by decide,
   (C9_payment_gate
      [Event.verifyPayment "created", Event.navigate "Assessment", Event.submitAssessment]
      (by decide)).1⟩

/-- Claim C10: the degenerate empty-input average 0.0 classifies to
"Beginner" — the lowest band of the source is closed at 0. -/
theorem C10_zero_is_beginner :
    determine_maturity (aggregate []) = "Beginner" ∧ determine_maturity 0 = "Beginner" := by
  constructor <;> norm_num [aggregate, determine_maturity, READINESS_LEVELS, classifyAux]
